import Mathlib

/-!
Verification of the consul-pod verification step of
`viya4_environment_restart.py` (step 8, `verify_consul_pods`), as a shallow
embedding in Lean.  Pure data processing (health classification of pod
records, loop structure of the retry/remediation orchestration, the bounded
retry loop around the `rm -f raft.db` command) is translated directly from
the source; external commands (`kubectl`, `rm`) are modelled by environments
that script their outcomes, and printing/logging/sleeping are modelled as
recorded events (they do not influence control flow in the source beyond
the durations we record).
-/

namespace Viya4Restart

/-! ### Pod records, as read from `kubectl get pods -o json`

A container status carries `cs.get("ready", False)` (absent `ready` reads
false, so a plain `Bool` is faithful), and the optional `state` sub-objects:
`waiting` with its optional `reason`, and `terminated` with its optional
`exitCode` (read with default 0 in the source). -/

structure ContainerStatus where
  ready : Bool
  /-- `some r` means the state object has a `waiting` key whose optional
  `reason` is `r`; `none` means no `waiting` key. -/
  waiting : Option (Option String)
  /-- `some c` means the state object has a `terminated` key whose optional
  `exitCode` is `c`; `none` means no `terminated` key. -/
  terminated : Option (Option Int)
deriving Repr, DecidableEq

/-- A pod item: `metadata.name`, optional `status.phase`
(`pod["status"].get("phase", "Unknown")`), and `status.containerStatuses`
(`pod["status"].get("containerStatuses", [])`). -/
structure PodItem where
  name : String
  phase : Option String
  containerStatuses : List ContainerStatus
deriving Repr, DecidableEq

/-- `pod["status"].get("phase", "Unknown")`. -/
def effPhase (p : PodItem) : String := p.phase.getD "Unknown"

/-- `"waiting" in state and state["waiting"].get("reason") == "CrashLoopBackOff"`. -/
def crashLoopWaiting (cs : ContainerStatus) : Bool :=
  match cs.waiting with
  | some (some r) => r == "CrashLoopBackOff"
  | _ => false

/-- `"terminated" in state and state["terminated"].get("exitCode", 0) != 0`. -/
def terminatedNonzero (cs : ContainerStatus) : Bool :=
  match cs.terminated with
  | some c => c.getD 0 != 0
  | none => false

/-- The `status` computed for a pod: starts as the phase, and the loop over
container statuses overrides it with `"CrashLoopBackOff"` or `"Error"` at the
first container whose state matches, then breaks. -/
def podDisplayStatus (phase : String) : List ContainerStatus → String
  | [] => phase
  | cs :: rest =>
    if crashLoopWaiting cs then "CrashLoopBackOff"
    else if terminatedNonzero cs then "Error"
    else podDisplayStatus phase rest

/-- `sum(1 for cs in container_statuses if cs.get("ready", False))`. -/
def readyCount (l : List ContainerStatus) : Nat :=
  (l.filter (fun cs => cs.ready)).length

/-- `f"{ready_containers}/{total_containers}"`. -/
def readyStatusStr (ready total : Nat) : String :=
  toString ready ++ "/" ++ toString total

/-- The `(pod_name, ready_status, status)` tuple appended to `pod_statuses`. -/
def podStatusEntry (p : PodItem) : String × String × String :=
  (p.name,
   readyStatusStr (readyCount p.containerStatuses) p.containerStatuses.length,
   podDisplayStatus (effPhase p) p.containerStatuses)

/-- The per-pod test that clears `all_healthy`:
`ready_status != f"{total_containers}/{total_containers}" or status not in ["Running"]`. -/
def podUnhealthy (p : PodItem) : Bool :=
  let total := p.containerStatuses.length
  (readyStatusStr (readyCount p.containerStatuses) total != readyStatusStr total total)
    || !(podDisplayStatus (effPhase p) p.containerStatuses == "Running")

/-- The body of `check_consul_health` after a successful `kubectl get pods`
parse: empty item list returns `(False, [])` with a warning; otherwise
`all_healthy` starts true and is cleared by any pod failing the per-pod test,
and the `(name, ready, status)` tuples are returned in input order. -/
def checkConsulHealthOnPods (pods : List PodItem) :
    Bool × List (String × String × String) :=
  if pods.isEmpty then (false, [])
  else (pods.all (fun p => !podUnhealthy p), pods.map podStatusEntry)

/-- Outcome of the `kubectl get pods ... -o json` invocation feeding
`check_consul_health`: the command fails (`CalledProcessError`), its output is
malformed (`JSONDecodeError`), or it parses to a list of pod items. -/
inductive KubectlPodsResult where
  | cmdError
  | jsonError
  | ok (pods : List PodItem)
deriving Repr, DecidableEq

/-- `check_consul_health`: the `except (CalledProcessError, JSONDecodeError)`
handler returns `(False, [])` in both failure cases; otherwise the pod list is
processed by `checkConsulHealthOnPods`. -/
def check_consul_health (r : KubectlPodsResult) :
    Bool × List (String × String × String) :=
  match r with
  | .cmdError => (false, [])
  | .jsonError => (false, [])
  | .ok pods => checkConsulHealthOnPods pods

/-! ### The spec-side health predicates

`specHealthy` follows the spec's three-conjunct invariant ("a PodStatus is
healthy iff phase == Running and readyContainers == totalContainers and
terminalReason == None"); `specTwoConjunctHealthy` follows the spec sentence
that omits the terminal-reason conjunct.  Both are to be compared with the
code-derived `podUnhealthy`. -/

/-- A container exhibits a terminal reason: waiting with reason
`CrashLoopBackOff`, or terminated with non-zero exit code. -/
def containerTerminal (cs : ContainerStatus) : Bool :=
  crashLoopWaiting cs || terminatedNonzero cs

/-- Spec invariant: healthy iff all containers ready, phase `Running`, and no
container has a terminal reason. -/
def specHealthy (p : PodItem) : Bool :=
  (readyCount p.containerStatuses == p.containerStatuses.length)
    && (effPhase p == "Running")
    && p.containerStatuses.all (fun cs => !containerTerminal cs)

/-- Spec sentence for C4: healthy iff all containers ready and phase
`Running` (no terminal-reason conjunct). -/
def specTwoConjunctHealthy (p : PodItem) : Bool :=
  (readyCount p.containerStatuses == p.containerStatuses.length)
    && (effPhase p == "Running")

/-! ### Decimal rendering is injective

The source compares the f-strings `f"{ready}/{total}"` and
`f"{total}/{total}"`; to relate this to `ready = total` we prove that
`Nat.repr` (the `toString` of `Nat`) is injective, via a decoding
roundtrip. -/

/-- Numeric value of a decimal digit character. -/
def digitVal (c : Char) : Nat := c.toNat - 48

/-- Decode a decimal digit string, most significant digit first. -/
def decodeDigits (l : List Char) : Nat :=
  l.foldl (fun a c => a * 10 + digitVal c) 0

theorem digitVal_digitChar : ∀ d < 10, digitVal (Nat.digitChar d) = d := by decide

theorem toDigitsCore_acc (fuel : Nat) :
    ∀ (n : Nat) (ds : List Char),
      Nat.toDigitsCore 10 fuel n ds = Nat.toDigitsCore 10 fuel n [] ++ ds := by
  induction fuel with
  | zero => intro n ds; simp [Nat.toDigitsCore]
  | succ f ih =>
    intro n ds
    simp only [Nat.toDigitsCore]
    by_cases h : n / 10 = 0
    · simp [h]
    · simp only [if_neg h]
      rw [ih (n / 10) (Nat.digitChar (n % 10) :: ds),
          ih (n / 10) [Nat.digitChar (n % 10)]]
      simp

theorem toDigitsCore_fuel :
    ∀ (n f₁ f₂ : Nat), n < f₁ → n < f₂ →
      Nat.toDigitsCore 10 f₁ n [] = Nat.toDigitsCore 10 f₂ n [] := by
  intro n
  induction n using Nat.strong_induction_on with
  | _ n ih =>
    intro f₁ f₂ h₁ h₂
    match f₁, f₂ with
    | g₁ + 1, g₂ + 1 =>
      simp only [Nat.toDigitsCore]
      by_cases h : n / 10 = 0
      · simp [h]
      · simp only [if_neg h]
        have hpos : 0 < n := by omega
        have hlt : n / 10 < n := Nat.div_lt_self hpos (by decide)
        rw [toDigitsCore_acc g₁, toDigitsCore_acc g₂,
            ih (n / 10) hlt g₁ g₂ (by omega) (by omega)]

theorem decode_toDigits :
    ∀ n : Nat, decodeDigits (Nat.toDigits 10 n) = n := by
  intro n
  induction n using Nat.strong_induction_on with
  | _ n ih =>
    simp only [Nat.toDigits, Nat.toDigitsCore]
    by_cases h : n / 10 = 0
    · have hn : n < 10 := by omega
      simp [h, decodeDigits, List.foldl,
            digitVal_digitChar (n % 10) (Nat.mod_lt _ (by decide))]
      omega
    · simp only [if_neg h]
      have hpos : 0 < n := by omega
      have hlt : n / 10 < n := Nat.div_lt_self hpos (by decide)
      rw [toDigitsCore_acc n (n / 10),
          toDigitsCore_fuel (n / 10) n (n / 10 + 1) (by omega) (Nat.lt_succ_self _)]
      have ihd := ih (n / 10) hlt
      simp only [Nat.toDigits] at ihd
      simp only [decodeDigits] at ihd ⊢
      rw [List.foldl_append, ihd]
      simp [List.foldl, digitVal_digitChar (n % 10) (Nat.mod_lt _ (by decide))]
      omega

theorem natRepr_injective : Function.Injective Nat.repr := by
  intro a b h
  have hdata : Nat.toDigits 10 a = Nat.toDigits 10 b := by
    have := congrArg String.data h
    simpa [Nat.repr, List.asString] using this
  have ha := decode_toDigits a
  rw [hdata, decode_toDigits b] at ha
  exact ha.symm

theorem readyStatusStr_eq_iff (r t : Nat) :
    readyStatusStr r t = readyStatusStr t t ↔ r = t := by
  constructor
  · intro h
    apply natRepr_injective
    have hd := congrArg String.data h
    simp only [readyStatusStr, String.data_append] at hd
    have h1 := List.append_cancel_right hd
    exact congrArg String.mk (List.append_cancel_right h1)
  · intro h; rw [h]

theorem readyStatusStr_beq (r t : Nat) :
    (readyStatusStr r t == readyStatusStr t t) = (r == t) := by
  by_cases h : r = t
  · subst h; simp
  · have h2 : readyStatusStr r t ≠ readyStatusStr t t :=
      fun he => h ((readyStatusStr_eq_iff r t).mp he)
    simp [beq_iff_eq, h, h2]

theorem podDisplayStatus_beq_running (ph : String) (l : List ContainerStatus) :
    (podDisplayStatus ph l == "Running") =
      ((ph == "Running") && l.all (fun cs => !containerTerminal cs)) := by
  induction l with
  | nil => simp [podDisplayStatus]
  | cons cs rest ih =>
    simp only [podDisplayStatus, containerTerminal, List.all_cons]
    by_cases h1 : crashLoopWaiting cs
    · simp [h1]
    · by_cases h2 : terminatedNonzero cs
      · simp [h1, h2]
      · simp [h1, h2, ih, containerTerminal]

/-- The code's per-pod test agrees with the spec's three-conjunct health
invariant. -/
theorem not_podUnhealthy (p : PodItem) : (!podUnhealthy p) = specHealthy p := by
  simp only [podUnhealthy, specHealthy, bne, Bool.not_or, Bool.not_not,
    readyStatusStr_beq, podDisplayStatus_beq_running]
  cases readyCount p.containerStatuses == p.containerStatuses.length <;>
    cases effPhase p == "Running" <;>
      cases p.containerStatuses.all (fun cs => !containerTerminal cs) <;> rfl

/-! ### The step-8 orchestration loop (`verify_consul_pods`)

The loop `while attempt <= max_retries` performs one health check per
iteration; on a healthy result it breaks, otherwise it remediates,
increments `attempt` and re-enters.  Pod-status tuples only feed the printed
comparison table, so only the boolean outcomes of the successive checks
(scripted by check index, which equals the current `attempt`) drive the
control flow. -/

/-- What the loop produced: how many health checks ran, how many times
`remediate_consul` was invoked, and the final `all_healthy`. -/
structure VerifyOutcome where
  healthChecks : Nat
  remediations : Nat
  allHealthy : Bool
deriving Repr, DecidableEq

/-- The loop body, with fuel `maxRetries + 1 - attempt` (the number of loop
entries still admitted by the guard `attempt <= max_retries`). -/
def verifyGo (script : Nat → Bool) : Nat → Nat → Nat → VerifyOutcome
  | checks, rems, 0 => ⟨checks, rems, false⟩
  | checks, rems, fuel + 1 =>
    if script checks then ⟨checks + 1, rems, true⟩
    else verifyGo script (checks + 1) (rems + 1) fuel

/-- The loop for a general retry budget. -/
def verifyLoop (script : Nat → Bool) (maxRetries : Nat) : VerifyOutcome :=
  verifyGo script 0 0 (maxRetries + 1)

/-- `verify_consul_pods` uses `max_retries = 1`. -/
def verify_consul_pods (script : Nat → Bool) : VerifyOutcome :=
  verifyLoop script 1

theorem verifyGo_checks_le (script : Nat → Bool) :
    ∀ (fuel checks rems : Nat),
      (verifyGo script checks rems fuel).healthChecks ≤ checks + fuel := by
  intro fuel
  induction fuel with
  | zero => intro c r; simp [verifyGo]
  | succ f ih =>
    intro c r
    simp only [verifyGo]
    cases h : script c with
    | true => simp [h]
    | false =>
      simp only [h, Bool.false_eq_true, if_false]
      have := ih (c + 1) (r + 1)
      omega

/-! ### `remediate_consul`

External commands are scripted by an environment; printing, logging and the
manifest temp file are not modelled (they do not feed back into control
flow), while sleeps and command invocations are recorded as events.  Error
messages are abbreviated to their kind and the PVC concerned: the source
interpolates `stderr` text and a timestamped pod name into the message,
which does not affect which errors are recorded. -/

/-- Entries of `pvc_errors` (plus the scale-up failure appended at the
end). -/
inductive RemError where
  | createPodFailed (pvc : String)
  | helperNotRunning (pvc : String)
  | rmRaftFailed (pvc : String)
  | deleteHelperFailed (pvc : String)
  | scaleUpFailed
deriving Repr, DecidableEq

/-- Externally visible actions of `remediate_consul`, in program order. -/
inductive Event where
  | scaleDown (ok : Bool)
  | countdownSec (n : Nat)
  | forceDeletePod (name : String) (ok : Bool)
  | createHelper (pvc : String) (ok : Bool)
  | forceDeleteHelper (pvc : String) (ok : Bool)
  | listRaft (ok : Bool)
  | rmRaft (pvc : String) (attempt : Nat) (ok : Bool)
  | sleepSec (n : Nat)
  | listRaftDir (ok : Bool)
  | deleteHelper (pvc : String) (ok : Bool)
  | scaleUp (ok : Bool)
deriving Repr, DecidableEq

/-- The `while attempt < max_attempts` poll loop waiting for the helper pod
(`max_attempts = 30`, 2s sleep between polls): `poll k` is the phase read at
poll `k` (`none` = the `kubectl get pod` failed or returned malformed JSON,
which also just sleeps and increments).  Returns the final value of
`attempt`; fuel is `30 - attempt`. -/
def waitGo (poll : Nat → Option String) : Nat → Nat → Nat
  | attempt, 0 => attempt
  | attempt, fuel + 1 =>
    match poll attempt with
    | some ph => if ph == "Running" then attempt else waitGo poll (attempt + 1) fuel
    | none => waitGo poll (attempt + 1) fuel

/-- Final `attempt` value of the poll loop started at 0; the source's
timeout test is `attempt >= max_attempts`, i.e. `30 ≤ waitAttempts poll`. -/
def waitAttempts (poll : Nat → Option String) : Nat := waitGo poll 0 30

/-- The `while retry_attempt < max_retries` loop around
`kubectl exec ... rm -f /consul/data/raft/raft.db` (`max_retries = 3`):
`o k` scripts the `k`-th attempt.  On success it breaks; on failure the
counter is incremented, and if still below 3 the loop sleeps 5 seconds and
retries, otherwise it appends the error.  Fuel is `3 - retry_attempt`. -/
def rmGo (pvc : String) (o : Nat → Bool) : Nat → Nat → List RemError × List Event
  | _, 0 => ([], [])
  | k, fuel + 1 =>
    if o k then ([], [Event.rmRaft pvc k true])
    else
      if k + 1 < 3 then
        let r := rmGo pvc o (k + 1) fuel
        (r.1, Event.rmRaft pvc k false :: Event.sleepSec 5 :: r.2)
      else
        ([RemError.rmRaftFailed pvc], [Event.rmRaft pvc k false])

/-- The `rm -f raft.db` retry loop started at attempt 0. -/
def rmRetrySteps (pvc : String) (o : Nat → Bool) : List RemError × List Event :=
  rmGo pvc o 0 3

/-- Scripted outcomes of the external commands issued while processing one
PVC. -/
structure PvcEnv where
  createOk : Bool
  pollPhase : Nat → Option String
  listBeforeOk : Bool
  rmOutcome : Nat → Bool
  listAfterOk : Bool
  deleteHelperOk : Bool
  deleteHelperOnTimeoutOk : Bool

/-- Processing of a single PVC inside `remediate_consul`: create the helper
pod (on failure record the error and `continue`), wait for it to reach
`Running` (on timeout record the error, force-delete the helper — a failure
of that delete is only logged — and `continue`), then list `raft.db`
(warning only), remove it with the bounded retry loop, list the directory
(warning only), and delete the helper pod (a failure here is recorded). -/
def processPvc (pvc : String) (env : PvcEnv) : List RemError × List Event :=
  if !env.createOk then
    ([RemError.createPodFailed pvc], [Event.createHelper pvc false])
  else
    if 30 ≤ waitAttempts env.pollPhase then
      ([RemError.helperNotRunning pvc],
       [Event.createHelper pvc true,
        Event.forceDeleteHelper pvc env.deleteHelperOnTimeoutOk])
    else
      let rm := rmRetrySteps pvc env.rmOutcome
      let delErrors : List RemError :=
        if env.deleteHelperOk then [] else [RemError.deleteHelperFailed pvc]
      (rm.1 ++ delErrors,
       [Event.createHelper pvc true, Event.listRaft env.listBeforeOk] ++ rm.2
         ++ [Event.listRaftDir env.listAfterOk,
             Event.deleteHelper pvc env.deleteHelperOk])

/-- The three consul data PVCs handled by `remediate_consul`. -/
def pvc_names : List String :=
  ["sas-viya-consul-data-volume-sas-consul-server-0",
   "sas-viya-consul-data-volume-sas-consul-server-1",
   "sas-viya-consul-data-volume-sas-consul-server-2"]

/-- Scripted outcomes of the external commands of one `remediate_consul`
call.  `lingering = none` models a failed `kubectl get pods` during the
lingering-pod sweep (only logged); `some l` lists the lingering pods with
the outcome of their forced deletion (failures only logged). -/
structure RemEnv where
  scaleDownOk : Bool
  lingering : Option (List (String × Bool))
  pvcEnvs : Nat → PvcEnv
  scaleUpOk : Bool

def lingeringEvents : Option (List (String × Bool)) → List Event
  | none => []
  | some pods => pods.map (fun p => Event.forceDeletePod p.1 p.2)

/-- `remediate_consul`: scale the statefulset down (failure only logged),
wait 10s, sweep lingering pods, process each PVC of `pvc_names` in order
accumulating `pvc_errors`, scale back up to 3 replicas (failure recorded),
and wait 120s.  Total: no combination of scripted failures aborts it. -/
def remediate_consul (env : RemEnv) : List RemError × List Event :=
  let results := (List.range pvc_names.length).map
    (fun i => processPvc (pvc_names.getD i "") (env.pvcEnvs i))
  let scaleUpErrors : List RemError :=
    if env.scaleUpOk then [] else [RemError.scaleUpFailed]
  ((results.map Prod.fst).flatten ++ scaleUpErrors,
   [Event.scaleDown env.scaleDownOk, Event.countdownSec 10]
     ++ lingeringEvents env.lingering
     ++ (results.map Prod.snd).flatten
     ++ [Event.scaleUp env.scaleUpOk, Event.countdownSec 120])

/-! ### Consensus-log removal semantics (for the idempotence claim) -/

/-- Modelled from the spec: the exit status of the `rm -f` command used to
remove the consensus log.  `rm` itself is not part of this repository; the
spec fixes its semantics — "removing an absent file is not an error" — so
the command succeeds whether or not the file is present. -/
def rmForceOutcome (_present : Bool) : Bool := true

/-- One consensus-log removal step on a claim whose mounted file-presence
state is `present`: the bounded retry loop driven by `rm -f` semantics,
returning its errors/events and the new presence state (the file is absent
afterwards). -/
def raftRemovalStep (pvc : String) (present : Bool) :
    (List RemError × List Event) × Bool :=
  (rmRetrySteps pvc (fun _ => rmForceOutcome present), false)

/-- Is an event an invocation of the `rm` command? -/
def isRmEvent (e : Event) : Bool :=
  match e with
  | Event.rmRaft _ _ _ => true
  | _ => false

/-- Every recorded sleep in the list pauses 5 seconds. -/
def sleepsAreFive (l : List Event) : Bool :=
  l.all (fun e =>
    match e with
    | Event.sleepSec n => n == 5
    | _ => true)

/-! ### Concrete sample records used as witnesses -/

/-- A 1/1 Running consul pod with a healthy container. -/
def healthyPod : PodItem :=
  ⟨"sas-consul-server-0", some "Running", [⟨true, none, none⟩]⟩

/-- A pod whose phase is Running and whose single container reports ready,
but whose state shows a termination with exit code 1. -/
def terminatedReadyPod : PodItem :=
  ⟨"sas-consul-server-0", some "Running", [⟨true, none, some (some 1)⟩]⟩

/-! ### Claim theorems -/

/-- C1, counterexample: at the empty pod list the health check returns
`allHealthy = false` although "every pod in the list is healthy" holds
vacuously, so the unrestricted iff of the claim fails. -/
theorem C1_counterexample :
    ¬ ((checkConsulHealthOnPods []).1 = true ↔
        ∀ p ∈ ([] : List PodItem), specHealthy p = true) := by
  decide

/-- C1 (amended to nonempty lists): for every nonempty list of pod records,
`allHealthy = true` iff every pod has all containers ready, phase `Running`,
and no container waiting in `CrashLoopBackOff` nor terminated with non-zero
exit code. -/
theorem C1_allHealthy_iff (pods : List PodItem) (h : pods ≠ []) :
    (checkConsulHealthOnPods pods).1 = true ↔
      ∀ p ∈ pods, specHealthy p = true := by
  have hne : pods.isEmpty = false := by
    cases pods with
    | nil => exact absurd rfl h
    | cons a l => rfl
  simp only [checkConsulHealthOnPods, hne, Bool.false_eq_true, if_false,
    List.all_eq_true, not_podUnhealthy]

/-- Witness for C1 at a concrete nonempty all-healthy list. -/
theorem C1_witness :
    [healthyPod] ≠ ([] : List PodItem) ∧
      ((checkConsulHealthOnPods [healthyPod]).1 = true ↔
        ∀ p ∈ [healthyPod], specHealthy p = true) :=
  ⟨by decide, C1_allHealthy_iff [healthyPod] (by decide)⟩

/-- C4, counterexample: a Running pod whose single container is ready but
terminated with exit code 1 is counted unhealthy by the code, while the
two-conjunct formula (ready counts and phase only) calls it healthy, so the
claimed characterization fails. -/
theorem C4_counterexample :
    (checkConsulHealthOnPods [terminatedReadyPod]).1 ≠
      [terminatedReadyPod].all specTwoConjunctHealthy := by
  decide

/-- C4 (amended): for every nonempty list of pod records, `allHealthy`
equals the conjunction, over all pods, of `readyContainers ==
totalContainers` and `phase == Running` and no container terminal reason. -/
theorem C4_allHealthy_eq (pods : List PodItem) (h : pods ≠ []) :
    (checkConsulHealthOnPods pods).1 = pods.all specHealthy := by
  have hne : pods.isEmpty = false := by
    cases pods with
    | nil => exact absurd rfl h
    | cons a l => rfl
  simp only [checkConsulHealthOnPods, hne, Bool.false_eq_true, if_false]
  congr 1
  funext p
  exact not_podUnhealthy p

/-- Witness for C4 at a concrete nonempty list. -/
theorem C4_witness :
    [healthyPod] ≠ ([] : List PodItem) ∧
      (checkConsulHealthOnPods [healthyPod]).1 = [healthyPod].all specHealthy :=
  ⟨by decide, C4_allHealthy_eq [healthyPod] (by decide)⟩

/-- C5: the health check degrades instead of raising — a failed `kubectl`
command, malformed JSON, and an empty pod list all yield `(false, [])` (the
warning/log output does not alter the returned value). -/
theorem C5_degrades_to_unhealthy :
    check_consul_health KubectlPodsResult.cmdError = (false, []) ∧
    check_consul_health KubectlPodsResult.jsonError = (false, []) ∧
    check_consul_health (KubectlPodsResult.ok []) = (false, []) :=
  ⟨rfl, rfl, rfl⟩

/-- C9: a pod with phase `Running` and an empty `containerStatuses` list is
reported as `0/0 Running`, passes the per-pod health test, and prepending it
to any pod list leaves the health conjunction that of the remaining pods. -/
theorem C9_empty_container_list (name : String) (rest : List PodItem) :
    podStatusEntry ⟨name, some "Running", []⟩ = (name, "0/0", "Running") ∧
    podUnhealthy ⟨name, some "Running", []⟩ = false ∧
    (checkConsulHealthOnPods (⟨name, some "Running", []⟩ :: rest)).1 =
      rest.all (fun q => !podUnhealthy q) := by
  have hu : podUnhealthy ⟨name, some "Running", []⟩ = false := by
    simp [podUnhealthy, readyCount, podDisplayStatus, effPhase]
  refine ⟨?_, hu, ?_⟩
  · have h00 : readyStatusStr 0 0 = "0/0" := by decide
    simp [podStatusEntry, readyCount, podDisplayStatus, effPhase, h00]
  · simp only [checkConsulHealthOnPods, List.isEmpty_cons, Bool.false_eq_true,
      if_false, List.all_cons]
    rw [hu]
    simp

/-- C7: if the first health check reports healthy, the loop stops with a
healthy outcome after exactly one check and zero remediations. -/
theorem C7_healthy_first_check (script : Nat → Bool) (h : script 0 = true) :
    verify_consul_pods script = ⟨1, 0, true⟩ := by
  simp [verify_consul_pods, verifyLoop, verifyGo, h]

/-- Witness for C7 at the constantly-healthy script. -/
theorem C7_witness :
    (fun _ : Nat => true) 0 = true ∧
      verify_consul_pods (fun _ => true) = ⟨1, 0, true⟩ :=
  ⟨rfl, C7_healthy_first_check (fun _ => true) rfl⟩

/-- C2, counterexample: with both health checks failing, the loop invokes
`remediate_consul` after each failed check — two remediation attempts, not
the single one the claim states (the health checks and unhealthy outcome
are as claimed). -/
theorem C2_counterexample :
    (fun _ : Nat => false) 0 = false ∧
    (fun _ : Nat => false) 1 = false ∧
    verify_consul_pods (fun _ => false) = ⟨2, 2, false⟩ ∧
    (verify_consul_pods (fun _ => false)).remediations ≠ 1 := by
  refine ⟨rfl, rfl, rfl, ?_⟩
  decide

/-- C2 (amended): when both the first and the retry health check fail, the
workflow performs exactly two health checks and exactly two remediation
attempts (one after each failed check), reports unhealthy, and performs no
third health check. -/
theorem C2_both_checks_fail (script : Nat → Bool)
    (h0 : script 0 = false) (h1 : script 1 = false) :
    verify_consul_pods script = ⟨2, 2, false⟩ := by
  simp [verify_consul_pods, verifyLoop, verifyGo, h0, h1]

/-- Witness for C2 at the constantly-failing script. -/
theorem C2_witness :
    (fun _ : Nat => false) 0 = false ∧
    (fun _ : Nat => false) 1 = false ∧
    verify_consul_pods (fun _ => false) = ⟨2, 2, false⟩ :=
  ⟨rfl, rfl, C2_both_checks_fail (fun _ => false) rfl rfl⟩

/-- On a successful helper-pod creation followed by a poll timeout,
processing of one PVC records exactly the not-Running error and performs the
create and the forced delete of the helper. -/
theorem processPvc_timeout (pvc : String) (env : PvcEnv)
    (hc : env.createOk = true) (ht : 30 ≤ waitAttempts env.pollPhase) :
    processPvc pvc env =
      ([RemError.helperNotRunning pvc],
       [Event.createHelper pvc true,
        Event.forceDeleteHelper pvc env.deleteHelperOnTimeoutOk]) := by
  simp [processPvc, hc, ht]

/-- Every PVC's processing performs its helper-pod creation attempt,
whatever the scripted outcomes. -/
theorem createHelper_mem_processPvc (pvc : String) (env : PvcEnv) :
    Event.createHelper pvc env.createOk ∈ (processPvc pvc env).2 := by
  cases hc : env.createOk with
  | false => simp [processPvc, hc]
  | true =>
    by_cases ht : 30 ≤ waitAttempts env.pollPhase
    · simp [processPvc, hc, ht]
    · simp [processPvc, hc, ht]

/-- An error recorded while processing the `i`-th PVC appears in
`remediate_consul`'s accumulated errors. -/
theorem mem_remediate_errors (env : RemEnv) (i : Nat)
    (hi : i < pvc_names.length) (x : RemError)
    (hx : x ∈ (processPvc (pvc_names.getD i "") (env.pvcEnvs i)).1) :
    x ∈ (remediate_consul env).1 := by
  simp only [remediate_consul]
  apply List.mem_append_left
  rw [List.mem_flatten]
  exact ⟨(processPvc (pvc_names.getD i "") (env.pvcEnvs i)).1,
    List.mem_map_of_mem Prod.fst
      (List.mem_map_of_mem
        (fun j => processPvc (pvc_names.getD j "") (env.pvcEnvs j))
        (List.mem_range.mpr hi)),
    hx⟩

/-- An event performed while processing the `i`-th PVC appears in
`remediate_consul`'s event list. -/
theorem mem_remediate_events (env : RemEnv) (i : Nat)
    (hi : i < pvc_names.length) (e : Event)
    (he : e ∈ (processPvc (pvc_names.getD i "") (env.pvcEnvs i)).2) :
    e ∈ (remediate_consul env).2 := by
  simp only [remediate_consul]
  apply List.mem_append_left
  apply List.mem_append_right
  rw [List.mem_flatten]
  exact ⟨(processPvc (pvc_names.getD i "") (env.pvcEnvs i)).2,
    List.mem_map_of_mem Prod.snd
      (List.mem_map_of_mem
        (fun j => processPvc (pvc_names.getD j "") (env.pvcEnvs j))
        (List.mem_range.mpr hi)),
    he⟩

/-- `remediate_consul` always ends with the scale-up step. -/
theorem scaleUp_mem_remediate (env : RemEnv) :
    Event.scaleUp env.scaleUpOk ∈ (remediate_consul env).2 := by
  simp only [remediate_consul]
  apply List.mem_append_right
  simp

/-- A remediation environment in which every helper pod stays Pending
forever while all other commands succeed. -/
def envTimeout : RemEnv :=
  ⟨true, some [],
   fun _ => ⟨true, fun _ => some "Pending", true, fun _ => true, true, true, true⟩,
   true⟩

/-- C6: for every combination of scripted per-claim failures,
`remediate_consul` runs to completion (it is a total function); a claim
whose helper pod never reaches `Running` within the 30 polls has its error
recorded and its helper pod force-deleted, every claim — including the
later ones — still gets its helper-pod creation attempt, and the final
scale-up step is still performed. -/
theorem C6_remediation_isolates_failures (env : RemEnv) (i : Nat)
    (hi : i < 3) (hc : (env.pvcEnvs i).createOk = true)
    (ht : 30 ≤ waitAttempts (env.pvcEnvs i).pollPhase) :
    RemError.helperNotRunning (pvc_names.getD i "") ∈ (remediate_consul env).1 ∧
    Event.forceDeleteHelper (pvc_names.getD i "")
        (env.pvcEnvs i).deleteHelperOnTimeoutOk ∈ (remediate_consul env).2 ∧
    (∀ j, j < 3 →
      Event.createHelper (pvc_names.getD j "") (env.pvcEnvs j).createOk
        ∈ (remediate_consul env).2) ∧
    Event.scaleUp env.scaleUpOk ∈ (remediate_consul env).2 := by
  have hlen : pvc_names.length = 3 := rfl
  have hrw := processPvc_timeout (pvc_names.getD i "") (env.pvcEnvs i) hc ht
  refine ⟨?_, ?_, ?_, scaleUp_mem_remediate env⟩
  · apply mem_remediate_errors env i (by rw [hlen]; exact hi)
    rw [hrw]
    simp
  · apply mem_remediate_events env i (by rw [hlen]; exact hi)
    rw [hrw]
    simp
  · intro j hj
    apply mem_remediate_events env j (by rw [hlen]; exact hj)
    exact createHelper_mem_processPvc _ _

/-- Witness for C6: claim 0's helper pod stays Pending forever. -/
theorem C6_witness :
    ((envTimeout.pvcEnvs 0).createOk = true ∧
      30 ≤ waitAttempts (envTimeout.pvcEnvs 0).pollPhase) ∧
    (RemError.helperNotRunning (pvc_names.getD 0 "")
        ∈ (remediate_consul envTimeout).1 ∧
      Event.forceDeleteHelper (pvc_names.getD 0 "")
        (envTimeout.pvcEnvs 0).deleteHelperOnTimeoutOk
        ∈ (remediate_consul envTimeout).2 ∧
      (∀ j, j < 3 →
        Event.createHelper (pvc_names.getD j "") (envTimeout.pvcEnvs j).createOk
          ∈ (remediate_consul envTimeout).2) ∧
      Event.scaleUp envTimeout.scaleUpOk ∈ (remediate_consul envTimeout).2) :=
  ⟨⟨rfl, by decide⟩,
   C6_remediation_isolates_failures envTimeout 0 (by decide) rfl (by decide)⟩

/-- C10: the `rm -f raft.db` loop records an error exactly when all three
attempts fail (the error list is empty iff some attempt succeeds, so an
earlier success records none), invokes `rm` at most 3 times, and every
pause it takes between attempts is 5 seconds. -/
theorem C10_rm_retry_bounds (pvc : String) (o : Nat → Bool) :
    (rmRetrySteps pvc o).1.isEmpty = (o 0 || o 1 || o 2) ∧
    List.countP isRmEvent (rmRetrySteps pvc o).2 ≤ 3 ∧
    sleepsAreFive (rmRetrySteps pvc o).2 = true := by
  cases h0 : o 0 <;> cases h1 : o 1 <;> cases h2 : o 2 <;>
    simp [rmRetrySteps, rmGo, h0, h1, h2, isRmEvent, sleepsAreFive,
      List.countP_cons, List.countP_nil]

/-- C8: consensus-log removal is idempotent — run on a claim whose file is
present it records no error and leaves the file absent, and run again on
the now-absent file it again records no error. -/
theorem C8_removal_idempotent (pvc : String) :
    (raftRemovalStep pvc true).1.1 = [] ∧
    (raftRemovalStep pvc true).2 = false ∧
    (raftRemovalStep pvc ((raftRemovalStep pvc true).2)).1.1 = [] := by
  refine ⟨?_, rfl, ?_⟩ <;> simp [raftRemovalStep, rmRetrySteps, rmGo, rmForceOutcome]

/-- C3: for every script of health-check outcomes the loop performs at most
`maxRetries + 1` health checks, and with the source's `max_retries = 1` at
most 2. -/
theorem C3_at_most_maxRetries_succ_checks :
    (∀ (script : Nat → Bool) (maxRetries : Nat),
        (verifyLoop script maxRetries).healthChecks ≤ maxRetries + 1) ∧
    (∀ script : Nat → Bool, (verify_consul_pods script).healthChecks ≤ 2) := by
  constructor
  · intro script maxRetries
    have := verifyGo_checks_le script (maxRetries + 1) 0 0
    simpa [verifyLoop] using this
  · intro script
    have := verifyGo_checks_le script 2 0 0
    simpa [verify_consul_pods, verifyLoop] using this

end Viya4Restart
